import Mathlib

/-!
Verification of the clinical-avatar session controller (src/server.js) against its
natural-language specification.

The per-call controller in `server.js` registers handlers on two WebSocket legs
(telephony and speech model). Each handler is pure apart from socket sends and
database writes, so we embed every handler as a function from an explicit session
state (plus the inbound event's payload) to a new state, recording outbound sends
and persistence calls as lists / counters inside the state.

Strings are modelled by Lean `String` / `List Char`; JavaScript `trim` and the
whitespace class are modelled by `Char.isWhitespace` (the calls only ever involve
ASCII whitespace). Node's lenient base64 decoder (`Buffer.from(s, 'base64')`) is
modelled by dropping characters outside the standard alphabet and converting the
remaining sextets to bytes, which matches Node on every input exercised here.
-/

set_option autoImplicit false

namespace ClinicalAvatar

/-! ### String helpers (JavaScript `trim`, substring containment, `?`-count) -/

/-- Model of JavaScript `String.prototype.trim`: drop whitespace at both ends. -/
def trimChars (l : List Char) : List Char :=
  ((l.dropWhile Char.isWhitespace).reverse.dropWhile Char.isWhitespace).reverse

/-- Containment of `pat` as a contiguous run of characters, modelling the
JavaScript `String.prototype.includes` used by substring cues. -/
def occursIn (pat : List Char) : List Char → Bool
  | [] => pat.isEmpty
  | c :: rest => pat.isPrefixOf (c :: rest) || occursIn pat rest

/-- Count of question marks, modelling `(content.match(/\?/g) || []).length`. -/
def countQ (l : List Char) : Nat := l.countP (fun c => c = '?')

/-! ### `saveMessage` (server.js lines 327-354)

The helper that persists one message row to the `messages` table. It returns
early (no insert) when the conversation id is still unresolved (`null` or the
empty string, both falsy) or when the content is empty / whitespace-only.
We model the attempted insert as `Option MessageRow`: `none` means skipped. -/

/-- Row shape inserted into the `messages` table (src/schema.sql lines 18-26). -/
structure MessageRow where
  conversation_id : String
  role : String
  content : String
  deriving Repr, DecidableEq

/-- Model of the `saveMessage` closure: guard on missing conversation id and on
empty / whitespace-only content, otherwise insert the row. -/
def saveMessage (conversationId : Option String) (role content : String) :
    Option MessageRow :=
  match conversationId with
  | none => none
  | some cid =>
    if cid = "" then none
    else if content = "" then none
    else if trimChars content.data = [] then none
    else some ⟨cid, role, content⟩

/-! ### Telephony-connection handler state (server.js lines 248-262, 418-462)

State threaded through the `connection.on('message')` / `close` handlers and the
model-leg close handler. `openAiSent` records every command sent on the model
leg (only the audio appends matter here); the two `Open` booleans model
`openAiWs.readyState === WebSocket.OPEN` and the telephony socket being open. -/

/-- The `input_audio_buffer.append` command built in the `'media'` case. -/
structure AudioAppendCmd where
  type : String
  audio : String
  deriving Repr, DecidableEq

structure ConnState where
  streamSid : Option String
  streamStarted : Bool
  wsConversationId : Option String
  openAiOpen : Bool
  twilioOpen : Bool
  openAiSent : List AudioAppendCmd
  deriving Repr, DecidableEq

/-- Initial connection state: `wsConversationId` is resolved from the query
string (server.js lines 258-262): `null` unless the parameter is present,
non-empty and not the literal string `"null"`. -/
def initConnState (queryConversationId : Option String) : ConnState :=
  { streamSid := none
    streamStarted := false
    wsConversationId :=
      match queryConversationId with
      | some p => if p ≠ "" ∧ p ≠ "null" then some p else none
      | none => none
    openAiOpen := false
    twilioOpen := true
    openAiSent := [] }

/-- Handler for `case 'media'` (server.js lines 423-431): forward the payload as
one `input_audio_buffer.append` command iff the model leg is open, else drop. -/
def onMedia (st : ConnState) (payload : String) : ConnState :=
  if st.openAiOpen then
    { st with openAiSent := st.openAiSent ++ [⟨"input_audio_buffer.append", payload⟩] }
  else st

/-- Handler for `case 'start'` (server.js lines 432-443): record the stream sid,
mark the stream started, and prefer a `customParameters.conversation_id` that is
truthy and not the literal `"null"`. (The greeting attempt made here is modelled
separately by the greeting machine below.) -/
def onStart (st : ConnState) (sid : String) (cpConversationId : Option String) :
    ConnState :=
  let st1 := { st with streamSid := some sid, streamStarted := true }
  match cpConversationId with
  | some c => if c ≠ "" ∧ c ≠ "null" then { st1 with wsConversationId := some c } else st1
  | none => st1

/-- Handler for `connection.on('close')` (server.js lines 454-457): the
telephony leg is gone; close the model leg if it is still open. -/
def onConnectionClose (st : ConnState) : ConnState :=
  { st with twilioOpen := false
            openAiOpen := if st.openAiOpen then false else st.openAiOpen }

/-- Handler for `openAiWs.on('close')` (server.js lines 460-462): the model leg
is gone; the handler body only logs, so the telephony leg is left untouched. -/
def onOpenAiClose (st : ConnState) : ConnState :=
  { st with openAiOpen := false }

/-! ### Turn enforcer: `conversation.item.created` handler (server.js lines 376-410)

The handler normalizes the item's content fragments into one string, then
enforces the one-question-per-turn rule: with more than one `?` it cancels the
response and substitutes `content.split('?')[0].trim() + '?'`, logging only the
substitute; otherwise it logs the content unchanged. -/

/-- Normalization of `item.content` (server.js lines 381-388): keep the truthy
transcript-or-text of each fragment, join with spaces, collapse whitespace runs
(`replace(/\s+/g, ' ')`) and trim; fall back to `"Assistant message"` if empty. -/
def collapseWsAux (prevWs : Bool) : List Char → List Char
  | [] => []
  | c :: rest =>
    if c.isWhitespace then
      if prevWs then collapseWsAux true rest else ' ' :: collapseWsAux true rest
    else c :: collapseWsAux false rest

def collapseWs (l : List Char) : List Char := collapseWsAux false l

/-- Normalized content string of an assistant item, from its non-empty fragment
texts (server.js lines 381-388). -/
def normalizeParts (parts : List String) : List Char :=
  let joined := String.intercalate " " (parts.filter (fun p => p ≠ ""))
  let collapsed := trimChars (collapseWs joined.data)
  if collapsed = [] then "Assistant message".data else collapsed

/-- Single-question enforcement (server.js lines 391-406): with more than one
question mark, replace the content by the text before the first `?`, trimmed,
with a `?` appended (`content.split('?')[0].trim() + '?'`). -/
def enforceSingleQuestion (content : List Char) : List Char :=
  if countQ content > 1 then
    trimChars (content.takeWhile (fun c => c ≠ '?')) ++ ['?']
  else content

/-- Utterances logged by one run of the assistant-item handler: exactly one
`saveMessage` call happens, with the enforced content (server.js lines 406-408). -/
def loggedAssistant (content : List Char) : List (List Char) :=
  [enforceSingleQuestion content]

/-- Stated from the spec's words, for comparison with `enforceSingleQuestion`:
"the original text truncated at the first question mark (inclusive), trimmed". -/
def specTruncatedAtFirstQ (content : List Char) : List Char :=
  trimChars (content.takeWhile (fun c => c ≠ '?') ++ ['?'])

/-- Stated from the amended spec wording, for comparison with
`enforceSingleQuestion`: the text before the first question mark, trimmed, with
a question mark appended. -/
def specAmendedSubstitute (content : List Char) : List Char :=
  trimChars (content.takeWhile (fun c => c ≠ '?')) ++ ['?']

/-! ### Greeting machine (server.js lines 248-256, 264-289, 291-323, 360-364, 432-443)

The flags `streamStarted`, `greetingSent`, `wantGreeting` and the socket state
govern `trySendGreeting`. The code's comment says "Greeting will be sent once
sessionReady && streamStarted", but the guard actually tested is
`!greetingSent && streamStarted && openAiWs.readyState === OPEN` — the
`wantGreeting` flag set by `session.updated` is never read. We track
`sessionUpdatedSeen` (has the model-session-configured signal fired?) and count
sends to study the exactly-once and the ordering parts of the spec. -/

structure GreetState where
  socketOpen : Bool
  streamStarted : Bool
  greetingSent : Bool
  wantGreeting : Bool
  sessionUpdatedSeen : Bool
  greetingsSentCount : Nat
  deriving Repr, DecidableEq

def initGreetState : GreetState :=
  { socketOpen := false, streamStarted := false, greetingSent := false
    wantGreeting := false, sessionUpdatedSeen := false, greetingsSentCount := 0 }

/-- `trySendGreeting` (server.js lines 264-289): send the scripted opening item
and a `response.create` iff not already sent, the stream has started and the
model socket is open; then set `greetingSent`. -/
def trySendGreeting (g : GreetState) : GreetState :=
  if ¬g.greetingSent ∧ g.streamStarted ∧ g.socketOpen then
    { g with greetingSent := true, greetingsSentCount := g.greetingsSentCount + 1 }
  else g

/-- Events that reach the greeting logic: the model socket opening (which also
schedules the ~1.5s fallback timer, lines 318-323), the `session.updated`
acknowledgment (lines 360-364, which schedules a 100ms retry), the expiry of
either timer, and the telephony `start` event (lines 432-443). -/
inductive GreetEvent where
  | socketOpenEv
  | sessionUpdatedEv
  | fallbackTimerEv
  | startEv
  deriving Repr, DecidableEq

/-- One greeting-relevant event. `session.updated` sets `wantGreeting` and (via
its 100ms timer) calls `trySendGreeting`; the fallback timer and the `start`
handler call `trySendGreeting` directly. -/
def greetStep (g : GreetState) (e : GreetEvent) : GreetState :=
  match e with
  | .socketOpenEv => { g with socketOpen := true }
  | .sessionUpdatedEv =>
    trySendGreeting { g with wantGreeting := true, sessionUpdatedSeen := true }
  | .fallbackTimerEv => trySendGreeting g
  | .startEv => trySendGreeting { g with streamStarted := true }

/-- A run of the greeting machine over an event trace. -/
def greetRun (evs : List GreetEvent) : GreetState :=
  evs.foldl greetStep initGreetState

/-! ### Outbound audio relay: `response.audio.delta` (server.js lines 366-373)

The relay builds `Buffer.from(response.delta, 'base64').toString('base64')` and
tags the frame with the current `streamSid`. We model Node's lenient base64
decoder (characters outside the standard alphabet, including `=` padding, are
dropped; leftover sextets beyond a whole byte are discarded) and the canonical
padded re-encoder of `toString('base64')`. -/

/-- The standard base64 alphabet, in value order. -/
def b64chars : List Char :=
  "ABCDEFGHIJKLMNOPQRSTUVWXYZabcdefghijklmnopqrstuvwxyz0123456789+/".data

/-- Character for a sextet value (total, out-of-range values never occur). -/
def sextetChar (n : Nat) : Char := b64chars.getD n 'A'

/-- Sextet value of a character, `none` for characters outside the alphabet. -/
def charSextet (c : Char) : Option Nat := b64chars.findIdx? (fun d => d = c)

/-- Byte stream of a sextet stream: groups of four sextets yield three bytes; a
leftover of three yields two bytes, of two yields one byte, of one yields none. -/
def sextetsToBytes : List Nat → List Nat
  | s1 :: s2 :: s3 :: s4 :: rest =>
    (s1 * 4 + s2 / 16) :: ((s2 % 16) * 16 + s3 / 4) :: ((s3 % 4) * 64 + s4) ::
      sextetsToBytes rest
  | [s1, s2, s3] => [s1 * 4 + s2 / 16, (s2 % 16) * 16 + s3 / 4]
  | [s1, s2] => [s1 * 4 + s2 / 16]
  | _ => []

/-- Model of `Buffer.from(s, 'base64')`: keep the alphabet characters, read them
as sextets, convert to bytes. -/
def b64decode (s : String) : List Nat :=
  sextetsToBytes (s.data.filterMap charSextet)

/-- Canonical padded base64 of a byte list, modelling `buf.toString('base64')`. -/
def b64encodeChars : List Nat → List Char
  | a :: b :: c :: rest =>
    sextetChar (a / 4) :: sextetChar ((a % 4) * 16 + b / 16) ::
      sextetChar ((b % 16) * 4 + c / 64) :: sextetChar (c % 64) :: b64encodeChars rest
  | [a, b] => [sextetChar (a / 4), sextetChar ((a % 4) * 16 + b / 16),
               sextetChar ((b % 16) * 4), '=']
  | [a] => [sextetChar (a / 4), sextetChar ((a % 4) * 16), '=', '=']
  | [] => []

def b64encode (bs : List Nat) : String := ⟨b64encodeChars bs⟩

/-- Outbound telephony media frame (server.js lines 367-371). -/
structure MediaFrame where
  event : String
  frameStreamSid : Option String
  payload : String
  deriving Repr, DecidableEq

/-- The `response.audio.delta` relay (server.js lines 366-373): decode the delta
from base64, re-encode it, tag the frame with the current `streamSid`. -/
def relayAudioDelta (streamSid : Option String) (delta : String) : MediaFrame :=
  { event := "media", frameStreamSid := streamSid
    payload := b64encode (b64decode delta) }

/-! ### Closing protocol (spec §3, §4.3, §4.4)

The repository declares the flag `endingCall` (server.js line 254) but the
caller-transcript handler carrying the coverage-gated closing protocol is not
present under src/ — the `conversation.item.input_audio_transcription.completed`
handler in the file only switches voices and dispatches persistence/extraction.
The definitions in this section are therefore modelled from the spec. -/

/-- Phases of the session state machine (spec §4.1). -/
inductive Phase where
  | INIT
  | STREAM_STARTING
  | GREETED
  | AWAITING_CONSENT
  | INTAKE_ACTIVE
  | CLOSE_REQUESTED
  | CLOSED
  deriving Repr, DecidableEq

/-- Coverage flags for the three mandatory clinical topics (spec §4.3). -/
structure Coverage where
  pastMedicalHistory : Bool
  currentMedications : Bool
  allergies : Bool
  deriving Repr, DecidableEq

def Coverage.complete (c : Coverage) : Bool :=
  c.pastMedicalHistory && c.currentMedications && c.allergies

/-- Modelled from the spec: `missingCategories()` (spec §4.3) — ordered
human-readable prompts for the categories not yet covered; the function itself
is absent from src/. -/
def missingCategories (c : Coverage) : List String :=
  (if c.pastMedicalHistory then [] else ["your past medical history"]) ++
  (if c.currentMedications then [] else ["your current medications"]) ++
  (if c.allergies then [] else ["any allergies you have"])

/-- Modelled from the spec: the fixed case-insensitive substring cues of the
end-of-call intent pattern ("goodbye/hang-up/done-style phrases", spec §4.4);
the cue list is absent from src/. -/
def endIntentCues : List String :=
  ["goodbye", "bye", "hang up", "i\x27m done", "all done"]

/-- Modelled from the spec: the confirmation-pattern cues checked while
`pendingClose` is true ("no", "that\x27s all", "nothing else", ..., spec §4.4);
the cue list is absent from src/. -/
def confirmationCues : List String :=
  ["no", "that\x27s all", "nothing else", "that\x27s it"]

/-- Case-insensitive substring match of any cue inside the transcript
(the transcript is lowercased character-wise, the cues are already lowercase). -/
def matchesAnyCue (cues : List String) (t : String) : Bool :=
  cues.any (fun cue => occursIn cue.data (t.data.map Char.toLower))

def isEndIntent (t : String) : Bool := matchesAnyCue endIntentCues t

def isConfirmation (t : String) : Bool := matchesAnyCue confirmationCues t

/-- The fixed closing question (spec §4.4 / SYSTEM_MESSAGE, server.js line 61). -/
def closingQuestion : String :=
  "Is there anything else you\x27d like your provider to know before your visit?"

/-- Session state of the closing protocol (spec §3). The counters record the
`CLOSE_REQUESTED` transitions, the mark-completed persistence calls and the
session closes, so that "exactly once" is a statement about the state. -/
structure Session where
  phase : Phase
  pendingClose : Bool
  coverage : Coverage
  closeRequestedCount : Nat
  markCompletedCalls : Nat
  closeCalls : Nat
  spokenLog : List String
  transcriptLog : List String
  deriving Repr, DecidableEq

def initSession : Session :=
  { phase := .INIT, pendingClose := false
    coverage := ⟨false, false, false⟩
    closeRequestedCount := 0, markCompletedCalls := 0, closeCalls := 0
    spokenLog := [], transcriptLog := [] }

/-- Modelled from the spec: the combined follow-up naming exactly the missing
categories (spec §4.4, first bullet); absent from src/. -/
def followUpUtterance (missing : List String) : String :=
  "Before we finish, could you tell me about " ++ String.intercalate ", " missing ++ "?"

/-- Modelled from the spec: the gating summary — the collaborator's summary of
the logged transcript, ending with the fixed closing question (spec §4.4,
second bullet); absent from src/. -/
def closingSummary (summarize : List String → String) (transcript : List String) :
    String :=
  summarize transcript ++ " " ++ closingQuestion

/-- Modelled from the spec: the closing-protocol part of the caller-transcript
handler (spec §4.1 `* → INTAKE_ACTIVE`, §4.4), which is absent from src/ (only
the `endingCall` flag is declared, server.js line 254). A transcript on a
closed session does nothing. While `pendingClose`, a confirmation closes (one
mark-completed call, one close of both legs), anything else stays in
`CLOSE_REQUESTED`. Otherwise an end-of-call intent either gets the combined
follow-up (coverage incomplete) or performs the one `CLOSE_REQUESTED`
transition, speaking the gating summary. -/
def processTranscript (summarize : List String → String) (s : Session) (t : String) :
    Session :=
  if s.phase = Phase.CLOSED then s
  else
    let s1 := { s with transcriptLog := s.transcriptLog ++ [t] }
    if s1.pendingClose then
      if isConfirmation t then
        { s1 with phase := .CLOSED
                  markCompletedCalls := s1.markCompletedCalls + 1
                  closeCalls := s1.closeCalls + 1 }
      else s1
    else
      let s2 := { s1 with phase := Phase.INTAKE_ACTIVE }
      if isEndIntent t then
        if (missingCategories s2.coverage).isEmpty then
          { s2 with pendingClose := true
                    phase := .CLOSE_REQUESTED
                    closeRequestedCount := s2.closeRequestedCount + 1
                    spokenLog := s2.spokenLog ++
                      [closingSummary summarize s2.transcriptLog] }
        else
          { s2 with spokenLog := s2.spokenLog ++
                      [followUpUtterance (missingCategories s2.coverage)] }
      else s2

/-- Merging a structured clinical-extraction result (spec §4.3): a non-empty
value for a mapped key sets the corresponding flag permanently. -/
def mergeExtraction (s : Session) (pmh meds alg : Bool) : Session :=
  { s with coverage :=
      { pastMedicalHistory := s.coverage.pastMedicalHistory || pmh
        currentMedications := s.coverage.currentMedications || meds
        allergies := s.coverage.allergies || alg } }

/-- Events that mutate the closing-protocol state: caller transcripts and
asynchronous extraction merges. -/
inductive SessionEvent where
  | transcript (t : String)
  | extraction (pmh meds alg : Bool)

/-- One session event. -/
def sessionStep (summarize : List String → String) (s : Session) (e : SessionEvent) :
    Session :=
  match e with
  | .transcript t => processTranscript summarize s t
  | .extraction pmh meds alg => mergeExtraction s pmh meds alg

/-- A run of the closing protocol from the initial session state. -/
def sessionRun (summarize : List String → String) (evs : List SessionEvent) : Session :=
  evs.foldl (sessionStep summarize) initSession

/-! ### Invariant predicates -/

/-- Invariant of the closing protocol: a pending close presupposes full
coverage, the `CLOSE_REQUESTED` transition has happened exactly as often as
`pendingClose` says, and the `CLOSE_REQUESTED` phase is only held pending. -/
def SessionInv (s : Session) : Prop :=
  (s.pendingClose = true → s.coverage.complete = true) ∧
  s.closeRequestedCount = (if s.pendingClose then 1 else 0) ∧
  (s.phase = Phase.CLOSE_REQUESTED → s.pendingClose = true)

/-- Invariant of the greeting machine: the number of greeting sends is governed
by the `greetingSent` flag. -/
def GreetInv (g : GreetState) : Prop :=
  g.greetingsSentCount = (if g.greetingSent then 1 else 0)

/-! ### Helper lemmas -/

theorem trimChars_sublist (l : List Char) : List.Sublist (trimChars l) l := by
  have h2 : List.Sublist
      ((l.dropWhile Char.isWhitespace).reverse.dropWhile Char.isWhitespace)
      (l.dropWhile Char.isWhitespace).reverse :=
    (List.dropWhile_suffix _).sublist
  have h3 := h2.reverse
  simp only [List.reverse_reverse] at h3
  exact h3.trans ((List.dropWhile_suffix _).sublist)

theorem countQ_append (l₁ l₂ : List Char) : countQ (l₁ ++ l₂) = countQ l₁ + countQ l₂ :=
  List.countP_append _ _ _

theorem countQ_takeWhile_eq_zero (l : List Char) :
    countQ (l.takeWhile (fun c => c ≠ '?')) = 0 := by
  rw [countQ, List.countP_eq_zero]
  intro a ha
  have := List.mem_takeWhile_imp ha
  simpa using this

theorem countQ_trimChars_le (l : List Char) : countQ (trimChars l) ≤ countQ l :=
  (trimChars_sublist l).countP_le _

theorem missing_isEmpty_eq_complete (c : Coverage) :
    (missingCategories c).isEmpty = c.complete := by
  rcases c with ⟨p, m, a⟩
  cases p <;> cases m <;> cases a <;> rfl

theorem processTranscript_closed (summarize : List String → String) (s : Session)
    (t : String) (h : s.phase = Phase.CLOSED) :
    processTranscript summarize s t = s := by
  simp [processTranscript, h]

theorem processTranscript_pending_confirm (summarize : List String → String)
    (s : Session) (t : String) (h0 : s.phase ≠ Phase.CLOSED)
    (h1 : s.pendingClose = true) (h2 : isConfirmation t = true) :
    processTranscript summarize s t =
      { s with transcriptLog := s.transcriptLog ++ [t]
               phase := Phase.CLOSED
               markCompletedCalls := s.markCompletedCalls + 1
               closeCalls := s.closeCalls + 1 } := by
  simp [processTranscript, h0, h1, h2]

theorem processTranscript_pending_other (summarize : List String → String)
    (s : Session) (t : String) (h0 : s.phase ≠ Phase.CLOSED)
    (h1 : s.pendingClose = true) (h2 : isConfirmation t = false) :
    processTranscript summarize s t =
      { s with transcriptLog := s.transcriptLog ++ [t] } := by
  simp [processTranscript, h0, h1, h2]

theorem processTranscript_intent_complete (summarize : List String → String)
    (s : Session) (t : String) (h0 : s.phase ≠ Phase.CLOSED)
    (h1 : s.pendingClose = false) (h2 : isEndIntent t = true)
    (h3 : (missingCategories s.coverage).isEmpty = true) :
    processTranscript summarize s t =
      { s with transcriptLog := s.transcriptLog ++ [t]
               phase := Phase.CLOSE_REQUESTED
               pendingClose := true
               closeRequestedCount := s.closeRequestedCount + 1
               spokenLog := s.spokenLog ++
                 [closingSummary summarize (s.transcriptLog ++ [t])] } := by
  simp [processTranscript, h0, h1, h2, h3]

theorem processTranscript_intent_missing (summarize : List String → String)
    (s : Session) (t : String) (h0 : s.phase ≠ Phase.CLOSED)
    (h1 : s.pendingClose = false) (h2 : isEndIntent t = true)
    (h3 : (missingCategories s.coverage).isEmpty = false) :
    processTranscript summarize s t =
      { s with transcriptLog := s.transcriptLog ++ [t]
               phase := Phase.INTAKE_ACTIVE
               spokenLog := s.spokenLog ++
                 [followUpUtterance (missingCategories s.coverage)] } := by
  simp [processTranscript, h0, h1, h2, h3]

theorem processTranscript_no_intent (summarize : List String → String)
    (s : Session) (t : String) (h0 : s.phase ≠ Phase.CLOSED)
    (h1 : s.pendingClose = false) (h2 : isEndIntent t = false) :
    processTranscript summarize s t =
      { s with transcriptLog := s.transcriptLog ++ [t]
               phase := Phase.INTAKE_ACTIVE } := by
  simp [processTranscript, h0, h1, h2]

theorem pendingClose_persists (summarize : List String → String) (s : Session)
    (e : SessionEvent) (h : s.pendingClose = true) :
    (sessionStep summarize s e).pendingClose = true ∧
    (sessionStep summarize s e).closeRequestedCount = s.closeRequestedCount := by
  cases e with
  | extraction pmh meds alg => exact ⟨h, rfl⟩
  | transcript t =>
    show (processTranscript summarize s t).pendingClose = true ∧
      (processTranscript summarize s t).closeRequestedCount = s.closeRequestedCount
    by_cases hph : s.phase = Phase.CLOSED
    · rw [processTranscript_closed summarize s t hph]; exact ⟨h, rfl⟩
    · by_cases hc : isConfirmation t = true
      · rw [processTranscript_pending_confirm summarize s t hph h hc]; exact ⟨h, rfl⟩
      · rw [processTranscript_pending_other summarize s t hph h
          (by simpa using hc)]
        exact ⟨h, rfl⟩

theorem pendingClose_persists_run (summarize : List String → String) (s : Session)
    (evs : List SessionEvent) (h : s.pendingClose = true) :
    (evs.foldl (sessionStep summarize) s).pendingClose = true ∧
    (evs.foldl (sessionStep summarize) s).closeRequestedCount = s.closeRequestedCount := by
  induction evs generalizing s with
  | nil => exact ⟨h, rfl⟩
  | cons e evs ih =>
    obtain ⟨h1, h2⟩ := pendingClose_persists summarize s e h
    obtain ⟨h3, h4⟩ := ih (sessionStep summarize s e) h1
    exact ⟨h3, by simp [List.foldl_cons, h4, h2]⟩

theorem sessionInv_step (summarize : List String → String) (s : Session)
    (e : SessionEvent) (h : SessionInv s) : SessionInv (sessionStep summarize s e) := by
  obtain ⟨h1, h2, h3⟩ := h
  cases e with
  | extraction pmh meds alg =>
    refine ⟨?_, h2, h3⟩
    intro hp
    have hc := h1 hp
    simp only [Coverage.complete, Bool.and_eq_true] at hc
    simp [sessionStep, mergeExtraction, Coverage.complete, hc.1.1, hc.1.2, hc.2]
  | transcript t =>
    show SessionInv (processTranscript summarize s t)
    by_cases hph : s.phase = Phase.CLOSED
    · rw [processTranscript_closed summarize s t hph]; exact ⟨h1, h2, h3⟩
    · by_cases hp : s.pendingClose = true
      · by_cases hc : isConfirmation t = true
        · rw [processTranscript_pending_confirm summarize s t hph hp hc]
          exact ⟨fun _ => h1 hp, h2, fun _ => hp⟩
        · rw [processTranscript_pending_other summarize s t hph hp (by simpa using hc)]
          exact ⟨fun _ => h1 hp, h2, fun _ => hp⟩
      · replace hp : s.pendingClose = false := by simpa using hp
        by_cases hi : isEndIntent t = true
        · by_cases hm : (missingCategories s.coverage).isEmpty = true
          · rw [processTranscript_intent_complete summarize s t hph hp hi hm]
            refine ⟨fun _ => ?_, ?_, fun _ => rfl⟩
            · rw [← missing_isEmpty_eq_complete]; exact hm
            · simp [h2, hp]
          · rw [processTranscript_intent_missing summarize s t hph hp hi
              (by simpa using hm)]
            exact ⟨by simp [hp], by simp [h2, hp], by simp⟩
        · rw [processTranscript_no_intent summarize s t hph hp (by simpa using hi)]
          exact ⟨by simp [hp], by simp [h2, hp], by simp⟩

theorem sessionInv_run (summarize : List String → String) (evs : List SessionEvent) :
    SessionInv (sessionRun summarize evs) := by
  have hinit : SessionInv initSession := ⟨by simp [initSession], by simp [initSession], by simp [initSession]⟩
  rw [sessionRun]
  generalize initSession = s at hinit ⊢
  induction evs generalizing s with
  | nil => exact hinit
  | cons e evs ih => exact ih _ (sessionInv_step summarize s e hinit)

/-! ### Claim theorems -/

/-- C6: an inbound telephony media frame is dropped silently — with no state
change and nothing buffered — when the model-leg socket is not open, and is
forwarded unchanged as a single `input_audio_buffer.append` command when it is
open. -/
theorem media_dropped_or_forwarded_verbatim (st : ConnState) (payload : String) :
    (st.openAiOpen = false → onMedia st payload = st) ∧
    (st.openAiOpen = true →
      onMedia st payload =
        { st with openAiSent :=
            st.openAiSent ++ [⟨"input_audio_buffer.append", payload⟩] }) := by
  constructor
  · intro h; simp [onMedia, h]
  · intro h; simp [onMedia, h]

/-- Witness for C6 at a concrete closed-socket state and a concrete open-socket
state. -/
theorem media_dropped_or_forwarded_verbatim_witness :
    onMedia (initConnState none) "b64payload" = initConnState none ∧
    onMedia { initConnState none with openAiOpen := true } "b64payload" =
      { initConnState none with openAiOpen := true
                                openAiSent := [⟨"input_audio_buffer.append", "b64payload"⟩] } :=
  ⟨(media_dropped_or_forwarded_verbatim (initConnState none) "b64payload").1 rfl,
   (media_dropped_or_forwarded_verbatim
      { initConnState none with openAiOpen := true } "b64payload").2 rfl⟩

/-- C7: the `customParameters.conversation_id` carried by the start event takes
precedence over the query-string fallback whenever both are present (non-empty,
not the `"null"` sentinel) and differ, and the sentinel `"null"` on either
channel never becomes the session's conversation id. -/
theorem conversationRef_resolution_prefers_customParameters :
    (∀ qv sid c, qv ≠ "" → qv ≠ "null" → c ≠ "" → c ≠ "null" → c ≠ qv →
      (onStart (initConnState (some qv)) sid (some c)).wsConversationId = some c) ∧
    (∀ q sid cp,
      (onStart (initConnState q) sid cp).wsConversationId ≠ some "null") := by
  constructor
  · intro qv sid c _ _ hc1 hc2 _
    simp [onStart, hc1, hc2]
  · intro q sid cp
    rcases cp with _ | c
    · rcases q with _ | p
      · simp [onStart, initConnState]
      · by_cases hp : p ≠ "" ∧ p ≠ "null"
        · simp [onStart, initConnState, hp]
        · simp [onStart, initConnState, hp]
    · by_cases hc : c ≠ "" ∧ c ≠ "null"
      · simp [onStart, hc]
      · rcases q with _ | p
        · simp [onStart, initConnState, hc]
        · by_cases hp : p ≠ "" ∧ p ≠ "null"
          · simp [onStart, initConnState, hc, hp]
          · simp [onStart, initConnState, hc, hp]

/-- Witness for C7: with query fallback `"conv-q"` and customParameters
`"conv-cp"`, resolution yields `"conv-cp"`; and a `"null"` customParameters
value never wins. -/
theorem conversationRef_resolution_prefers_customParameters_witness :
    (onStart (initConnState (some "conv-q")) "MZsid" (some "conv-cp")).wsConversationId
      = some "conv-cp" ∧
    (onStart (initConnState (some "conv-q")) "MZsid" (some "null")).wsConversationId
      ≠ some "null" :=
  ⟨(conversationRef_resolution_prefers_customParameters).1 "conv-q" "MZsid" "conv-cp"
      (by decide) (by decide) (by decide) (by decide) (by decide),
   (conversationRef_resolution_prefers_customParameters).2 (some "conv-q") "MZsid"
      (some "null")⟩

/-- C8 counterexample: with both legs open, the model-leg close handler leaves
the telephony connection open — the claim that closing the model-leg WebSocket
closes the telephony connection is false. -/
theorem either_leg_close_counterexample :
    (onOpenAiClose
      { streamSid := some "MZsid", streamStarted := true, wsConversationId := none
        openAiOpen := true, twilioOpen := true, openAiSent := [] }).twilioOpen
      = true := rfl

/-- C8 (amended): closing the telephony leg closes the model leg if still open,
leaving no dangling outbound connection; the model-leg close handler only logs
and leaves the telephony connection as it was. -/
theorem telephony_close_closes_model_leg (st : ConnState) :
    (onConnectionClose st).twilioOpen = false ∧
    (onConnectionClose st).openAiOpen = false ∧
    (onOpenAiClose st).openAiOpen = false ∧
    (onOpenAiClose st).twilioOpen = st.twilioOpen := by
  refine ⟨rfl, ?_, rfl, rfl⟩
  cases h : st.openAiOpen <;> simp [onConnectionClose, h]

/-- C10: a `saveMessage` attempt with an unresolved conversation id or empty /
whitespace-only content is skipped entirely, and any row it does insert carries
a non-empty conversation id and non-blank content. -/
theorem saveMessage_guards_conversation_and_content :
    (∀ role content, saveMessage none role content = none) ∧
    (∀ cid role content, trimChars content.data = [] →
      saveMessage cid role content = none) ∧
    (∀ cid role content row, saveMessage cid role content = some row →
      row.conversation_id ≠ "" ∧ row.content ≠ "" ∧
      trimChars row.content.data ≠ [] ∧
      cid = some row.conversation_id ∧ row.content = content) := by
  refine ⟨fun role content => rfl, ?_, ?_⟩
  · intro cid role content htrim
    rcases cid with _ | c
    · rfl
    · by_cases hc : c = ""
      · simp [saveMessage, hc]
      · by_cases hcont : content = ""
        · simp [saveMessage, hc, hcont]
        · simp [saveMessage, hc, hcont, htrim]
  · intro cid role content row h
    rcases cid with _ | c
    · simp [saveMessage] at h
    · by_cases hc : c = ""
      · simp [saveMessage, hc] at h
      · by_cases hcont : content = ""
        · simp [saveMessage, hc, hcont] at h
        · by_cases htrim : trimChars content.data = []
          · simp [saveMessage, hc, hcont, htrim] at h
          · simp [saveMessage, hc, hcont, htrim] at h
            subst h
            exact ⟨hc, hcont, htrim, rfl, rfl⟩

/-- Witness for C10: a whitespace-only content is skipped, and a real insert
carries the conversation id and content through. -/
theorem saveMessage_guards_conversation_and_content_witness :
    saveMessage (some "conv-1") "assistant" " \t " = none ∧
    ((some "conv-1" : Option String) = some "conv-1" ∧
      ("Hi there" : String) = "Hi there") := by
  refine ⟨saveMessage_guards_conversation_and_content.2.1 (some "conv-1") "assistant"
      " \t " (by decide), ?_⟩
  have h := saveMessage_guards_conversation_and_content.2.2 (some "conv-1") "assistant"
      "Hi there" ⟨"conv-1", "assistant", "Hi there"⟩ (by decide)
  exact ⟨h.2.2.2.1, h.2.2.2.2⟩

/-- Preservation of the greeting invariant by `trySendGreeting`. -/
theorem greetInv_trySend (g : GreetState) (h : GreetInv g) :
    GreetInv (trySendGreeting g) := by
  rw [trySendGreeting]
  split
  · next hc =>
    have hsent : g.greetingSent = false := by
      rcases hc with ⟨h1, _⟩; simpa using h1
    rw [GreetInv] at h
    rw [hsent] at h
    simp at h
    rw [GreetInv]
    simp [h]
  · exact h

/-- Preservation of the greeting invariant by every greeting-relevant event. -/
theorem greetInv_step (g : GreetState) (e : GreetEvent) (h : GreetInv g) :
    GreetInv (greetStep g e) := by
  cases e with
  | socketOpenEv => exact h
  | sessionUpdatedEv => exact greetInv_trySend _ h
  | fallbackTimerEv => exact greetInv_trySend _ h
  | startEv => exact greetInv_trySend _ h

/-- The greeting invariant holds along any event trace. -/
theorem greetInv_foldl (evs : List GreetEvent) :
    ∀ g, GreetInv g → GreetInv (evs.foldl greetStep g) := by
  induction evs with
  | nil => exact fun g h => h
  | cons e evs ih => exact fun g h => ih _ (greetInv_step g e h)

/-- C1 counterexample: for the normalized assistant text `"Who ? What?"` (two
question marks), the handler logs `"Who?"` — the prefix is trimmed before the
question mark is re-appended — which differs from the claim's "original text
truncated at the first question mark (inclusive), trimmed", namely `"Who ?"`. -/
theorem turnEnforcer_claim_counterexample :
    normalizeParts ["Who ? What?"] = "Who ? What?".data ∧
    countQ "Who ? What?".data = 2 ∧
    loggedAssistant "Who ? What?".data = ["Who?".data] ∧
    specTruncatedAtFirstQ "Who ? What?".data = "Who ?".data ∧
    loggedAssistant "Who ? What?".data ≠ [specTruncatedAtFirstQ "Who ? What?".data] := by
  refine ⟨by decide, by decide, by decide, by decide, by decide⟩

/-- C1 (amended): for an assistant message with more than one question mark in
its normalized text, the one logged utterance is the text before the first
question mark, trimmed, with a question mark appended, and it contains exactly
one question mark; with zero or one question mark the text is logged unchanged;
in every case exactly one utterance is logged, never both candidates. -/
theorem turnEnforcer_truncates_multi_question (parts : List String) :
    (countQ (normalizeParts parts) > 1 →
      loggedAssistant (normalizeParts parts) =
        [specAmendedSubstitute (normalizeParts parts)] ∧
      countQ (enforceSingleQuestion (normalizeParts parts)) = 1) ∧
    (countQ (normalizeParts parts) ≤ 1 →
      loggedAssistant (normalizeParts parts) = [normalizeParts parts]) ∧
    (loggedAssistant (normalizeParts parts)).length = 1 := by
  refine ⟨?_, ?_, rfl⟩
  · intro hq
    constructor
    · rw [loggedAssistant, enforceSingleQuestion, if_pos hq, specAmendedSubstitute]
    · rw [enforceSingleQuestion, if_pos hq, countQ_append]
      have h0 : countQ (trimChars ((normalizeParts parts).takeWhile (fun c => c ≠ '?'))) = 0 := by
        have hle := countQ_trimChars_le ((normalizeParts parts).takeWhile (fun c => c ≠ '?'))
        rw [countQ_takeWhile_eq_zero] at hle
        omega
      rw [h0]
      decide
  · intro hq
    rw [loggedAssistant, enforceSingleQuestion, if_neg (by omega)]

/-- Witness for C1 at the concrete inputs `["Who ? What?"]` (two question
marks, truncated and re-terminated) and `["Hi there."]` (no question mark,
passed through unchanged). -/
theorem turnEnforcer_truncates_multi_question_witness :
    (loggedAssistant (normalizeParts ["Who ? What?"]) =
        [specAmendedSubstitute (normalizeParts ["Who ? What?"])] ∧
      countQ (enforceSingleQuestion (normalizeParts ["Who ? What?"])) = 1) ∧
    loggedAssistant (normalizeParts ["Hi there."]) = [normalizeParts ["Hi there."]] :=
  ⟨(turnEnforcer_truncates_multi_question ["Who ? What?"]).1 (by decide),
   (turnEnforcer_truncates_multi_question ["Hi there."]).2.1 (by decide)⟩

/-- C5 (code bug): the trace "model socket opens, then the telephony stream
starts" sends the greeting even though the session-configured signal
(`session.updated`, which sets the never-read `wantGreeting` flag) has not
fired — contradicting the claim and the code's own comment "Greeting will be
sent once sessionReady && streamStarted". The exactly-once half of the claim
does hold: no trace ever sends the greeting twice, so the ~1.5s fallback timer
cannot cause a second greeting. -/
theorem greeting_sent_without_session_configured :
    (greetRun [.socketOpenEv, .startEv]).greetingSent = true ∧
    (greetRun [.socketOpenEv, .startEv]).sessionUpdatedSeen = false ∧
    (greetRun [.socketOpenEv, .startEv]).greetingsSentCount = 1 ∧
    ∀ evs : List GreetEvent, (greetRun evs).greetingsSentCount ≤ 1 := by
  refine ⟨rfl, rfl, rfl, ?_⟩
  intro evs
  have h : GreetInv (greetRun evs) := greetInv_foldl evs initGreetState rfl
  rw [GreetInv] at h
  rw [h]
  split <;> omega

/-- C2: along every event trace of the closing protocol, `pendingClose` implies
full coverage; and in a reachable session whose `missingCategories()` is
non-empty, processing an end-of-call-intent utterance never moves the session
to `CLOSE_REQUESTED`. -/
theorem pendingClose_requires_full_coverage (summarize : List String → String)
    (evs : List SessionEvent) :
    ((sessionRun summarize evs).pendingClose = true →
      (sessionRun summarize evs).coverage.complete = true) ∧
    (∀ t, isEndIntent t = true →
      (missingCategories (sessionRun summarize evs).coverage).isEmpty = false →
      (processTranscript summarize (sessionRun summarize evs) t).phase ≠
        Phase.CLOSE_REQUESTED) := by
  obtain ⟨h1, h2, h3⟩ := sessionInv_run summarize evs
  refine ⟨h1, ?_⟩
  intro t hint hmiss
  set s := sessionRun summarize evs with hs
  have hpend : s.pendingClose = false := by
    by_cases hp : s.pendingClose = true
    · have hcov := h1 hp
      rw [← missing_isEmpty_eq_complete, hmiss] at hcov
      cases hcov
    · simpa using hp
  by_cases hph : s.phase = Phase.CLOSED
  · rw [processTranscript_closed summarize s t hph, hph]
    simp
  · rw [processTranscript_intent_missing summarize s t hph hpend hint hmiss]
    simp

/-- Witness for C2: after full coverage and the first "goodbye" the pending
close indeed has full coverage, and with nothing covered a "goodbye" leaves
the session out of `CLOSE_REQUESTED`. -/
theorem pendingClose_requires_full_coverage_witness :
    (sessionRun (fun _ => "Summary.")
        [SessionEvent.extraction true true true,
         SessionEvent.transcript "goodbye"]).coverage.complete = true ∧
    (processTranscript (fun _ => "Summary.")
        (sessionRun (fun _ => "Summary.") [SessionEvent.transcript "hello there"])
        "goodbye").phase ≠ Phase.CLOSE_REQUESTED :=
  ⟨(pendingClose_requires_full_coverage (fun _ => "Summary.")
      [SessionEvent.extraction true true true,
       SessionEvent.transcript "goodbye"]).1 (by decide),
   (pendingClose_requires_full_coverage (fun _ => "Summary.")
      [SessionEvent.transcript "hello there"]).2 "goodbye" (by decide) (by decide)⟩

/-- C3: with all three coverage flags set and no close pending, the first
end-of-call-intent utterance sets `pendingClose`, moves the live session to
`CLOSE_REQUESTED`, performs that transition exactly once (the transition
counter increments now and never again, whatever events follow), and logs one
spoken summary ending with the fixed closing question. -/
theorem close_requested_exactly_once (summarize : List String → String)
    (s : Session) (t : String) (hcov : s.coverage.complete = true)
    (hpend : s.pendingClose = false) (hph : s.phase ≠ Phase.CLOSED)
    (hint : isEndIntent t = true) :
    (processTranscript summarize s t).pendingClose = true ∧
    (processTranscript summarize s t).phase = Phase.CLOSE_REQUESTED ∧
    (processTranscript summarize s t).closeRequestedCount = s.closeRequestedCount + 1 ∧
    (∃ pre, (processTranscript summarize s t).spokenLog =
      s.spokenLog ++ [pre ++ closingQuestion]) ∧
    (∀ evs : List SessionEvent,
      (evs.foldl (sessionStep summarize)
          (processTranscript summarize s t)).closeRequestedCount =
        (processTranscript summarize s t).closeRequestedCount) := by
  have hm : (missingCategories s.coverage).isEmpty = true := by
    rw [missing_isEmpty_eq_complete]
    exact hcov
  rw [processTranscript_intent_complete summarize s t hph hpend hint hm]
  refine ⟨rfl, rfl, rfl, ⟨summarize (s.transcriptLog ++ [t]) ++ " ", rfl⟩, ?_⟩
  intro evs
  exact (pendingClose_persists_run summarize _ evs rfl).2

/-- Witness for C3: a fully covered intake session processing "goodbye". -/
theorem close_requested_exactly_once_witness :
    (processTranscript (fun _ => "Thanks for sharing all of that.")
        { phase := Phase.INTAKE_ACTIVE, pendingClose := false
          coverage := ⟨true, true, true⟩
          closeRequestedCount := 0, markCompletedCalls := 0, closeCalls := 0
          spokenLog := [], transcriptLog := ["I get migraines"] }
        "goodbye").pendingClose = true ∧
    (processTranscript (fun _ => "Thanks for sharing all of that.")
        { phase := Phase.INTAKE_ACTIVE, pendingClose := false
          coverage := ⟨true, true, true⟩
          closeRequestedCount := 0, markCompletedCalls := 0, closeCalls := 0
          spokenLog := [], transcriptLog := ["I get migraines"] }
        "goodbye").phase = Phase.CLOSE_REQUESTED := by
  have h := close_requested_exactly_once (fun _ => "Thanks for sharing all of that.")
      { phase := Phase.INTAKE_ACTIVE, pendingClose := false
        coverage := ⟨true, true, true⟩
        closeRequestedCount := 0, markCompletedCalls := 0, closeCalls := 0
        spokenLog := [], transcriptLog := ["I get migraines"] }
      "goodbye" (by decide) rfl (by decide) (by decide)
  exact ⟨h.1, h.2.1⟩

/-- C4: while a close is pending in `CLOSE_REQUESTED`, a confirming transcript
performs exactly one mark-completed call and exactly one close of both legs;
a non-matching transcript performs neither and the session stays in
`CLOSE_REQUESTED`. -/
theorem confirmation_closes_exactly_once (summarize : List String → String)
    (s : Session) (t : String) (hpend : s.pendingClose = true)
    (hph : s.phase = Phase.CLOSE_REQUESTED) :
    (isConfirmation t = true →
      (processTranscript summarize s t).markCompletedCalls = s.markCompletedCalls + 1 ∧
      (processTranscript summarize s t).closeCalls = s.closeCalls + 1 ∧
      (processTranscript summarize s t).phase = Phase.CLOSED) ∧
    (isConfirmation t = false →
      (processTranscript summarize s t).markCompletedCalls = s.markCompletedCalls ∧
      (processTranscript summarize s t).closeCalls = s.closeCalls ∧
      (processTranscript summarize s t).phase = Phase.CLOSE_REQUESTED) := by
  have hph' : s.phase ≠ Phase.CLOSED := by
    rw [hph]
    simp
  constructor
  · intro hc
    rw [processTranscript_pending_confirm summarize s t hph' hpend hc]
    exact ⟨rfl, rfl, rfl⟩
  · intro hc
    rw [processTranscript_pending_other summarize s t hph' hpend hc]
    exact ⟨rfl, rfl, hph⟩

/-- Witness for C4: a pending session confirmed by "nothing else" closes with
one mark-completed call; "wait, one more thing" leaves it pending. -/
theorem confirmation_closes_exactly_once_witness :
    ((processTranscript (fun _ => "Summary.")
        { phase := Phase.CLOSE_REQUESTED, pendingClose := true
          coverage := ⟨true, true, true⟩
          closeRequestedCount := 1, markCompletedCalls := 0, closeCalls := 0
          spokenLog := [], transcriptLog := [] }
        "nothing else").markCompletedCalls = 1 ∧
      (processTranscript (fun _ => "Summary.")
        { phase := Phase.CLOSE_REQUESTED, pendingClose := true
          coverage := ⟨true, true, true⟩
          closeRequestedCount := 1, markCompletedCalls := 0, closeCalls := 0
          spokenLog := [], transcriptLog := [] }
        "nothing else").phase = Phase.CLOSED) ∧
    ((processTranscript (fun _ => "Summary.")
        { phase := Phase.CLOSE_REQUESTED, pendingClose := true
          coverage := ⟨true, true, true⟩
          closeRequestedCount := 1, markCompletedCalls := 0, closeCalls := 0
          spokenLog := [], transcriptLog := [] }
        "wait, one more thing").markCompletedCalls = 0 ∧
      (processTranscript (fun _ => "Summary.")
        { phase := Phase.CLOSE_REQUESTED, pendingClose := true
          coverage := ⟨true, true, true⟩
          closeRequestedCount := 1, markCompletedCalls := 0, closeCalls := 0
          spokenLog := [], transcriptLog := [] }
        "wait, one more thing").phase = Phase.CLOSE_REQUESTED) := by
  have h1 := confirmation_closes_exactly_once (fun _ => "Summary.")
      { phase := Phase.CLOSE_REQUESTED, pendingClose := true
        coverage := ⟨true, true, true⟩
        closeRequestedCount := 1, markCompletedCalls := 0, closeCalls := 0
        spokenLog := [], transcriptLog := [] }
      "nothing else" rfl rfl
  have h2 := confirmation_closes_exactly_once (fun _ => "Summary.")
      { phase := Phase.CLOSE_REQUESTED, pendingClose := true
        coverage := ⟨true, true, true⟩
        closeRequestedCount := 1, markCompletedCalls := 0, closeCalls := 0
        spokenLog := [], transcriptLog := [] }
      "wait, one more thing" rfl rfl
  refine ⟨⟨((h1.1 (by decide)).1), ((h1.1 (by decide)).2.2)⟩,
          ⟨((h2.2 (by decide)).1), ((h2.2 (by decide)).2.2)⟩⟩

/-- Every sextet value maps to its alphabet character and back. -/
theorem charSextet_sextetChar : ∀ n, n < 64 → charSextet (sextetChar n) = some n := by
  decide

/-- The padding character is outside the alphabet and is dropped by decoding. -/
theorem charSextet_padding : charSextet '=' = none := by decide

/-- Decoding inverts encoding on byte lists (bytes below 256). -/
theorem sextetsToBytes_roundtrip :
    ∀ bs : List Nat, (∀ b ∈ bs, b < 256) →
      sextetsToBytes ((b64encodeChars bs).filterMap charSextet) = bs
  | [], _ => rfl
  | [a], h => by
    have ha : a < 256 := h a (by simp)
    have h1 := charSextet_sextetChar (a / 4) (by omega)
    have h2 := charSextet_sextetChar ((a % 4) * 16) (by omega)
    simp only [b64encodeChars, List.filterMap_cons, h1, h2, charSextet_padding,
      List.filterMap_nil, sextetsToBytes, List.cons.injEq, and_true]
    omega
  | [a, b], h => by
    have ha : a < 256 := h a (by simp)
    have hb : b < 256 := h b (by simp)
    have h1 := charSextet_sextetChar (a / 4) (by omega)
    have h2 := charSextet_sextetChar ((a % 4) * 16 + b / 16) (by omega)
    have h3 := charSextet_sextetChar ((b % 16) * 4) (by omega)
    simp only [b64encodeChars, List.filterMap_cons, h1, h2, h3, charSextet_padding,
      List.filterMap_nil, sextetsToBytes, List.cons.injEq, and_true]
    omega
  | a :: b :: c :: rest, h => by
    have ha : a < 256 := h a (by simp)
    have hb : b < 256 := h b (by simp)
    have hc : c < 256 := h c (by simp)
    have hrest : ∀ x ∈ rest, x < 256 := fun x hx => h x (by simp [hx])
    have h1 := charSextet_sextetChar (a / 4) (by omega)
    have h2 := charSextet_sextetChar ((a % 4) * 16 + b / 16) (by omega)
    have h3 := charSextet_sextetChar ((b % 16) * 4 + c / 64) (by omega)
    have h4 := charSextet_sextetChar (c % 64) (by omega)
    simp only [b64encodeChars, List.filterMap_cons, h1, h2, h3, h4, sextetsToBytes,
      sextetsToBytes_roundtrip rest hrest, List.cons.injEq, and_true]
    refine ⟨by omega, by omega, by omega⟩

/-- Decoding inverts encoding at the `String` boundary. -/
theorem b64decode_b64encode (bs : List Nat) (h : ∀ b ∈ bs, b < 256) :
    b64decode (b64encode bs) = bs :=
  sextetsToBytes_roundtrip bs h

/-- C9 counterexample: the delta `"QQ"` (non-canonical base64: missing its
`==` padding) is re-encoded as `"QQ=="`, so the forwarded payload does not
equal the delta — the decode-then-re-encode step is not the identity on every
possible delta string. -/
theorem audio_delta_roundtrip_counterexample :
    (relayAudioDelta (some "MZsid") "QQ").payload = "QQ==" ∧
    (relayAudioDelta (some "MZsid") "QQ").payload ≠ "QQ" ∧
    (relayAudioDelta (some "MZsid") "QQ").frameStreamSid = some "MZsid" := by
  refine ⟨by decide, by decide, rfl⟩

/-- C9 (amended): on every delta that is the canonical padded base64 encoding
of some byte sequence — which is what the model leg emits — the forwarded
media payload equals the delta verbatim and the frame is tagged with the
current `streamSid`. -/
theorem audio_delta_forwarded_verbatim_on_canonical_base64 (sid : Option String)
    (bs : List Nat) (h : ∀ b ∈ bs, b < 256) :
    relayAudioDelta sid (b64encode bs) =
      { event := "media", frameStreamSid := sid, payload := b64encode bs } := by
  rw [relayAudioDelta, b64decode_b64encode bs h]

/-- Witness for C9 at the bytes `[72, 105, 33]` (`"Hi!"`, encoding `"SGkh"`). -/
theorem audio_delta_forwarded_verbatim_on_canonical_base64_witness :
    relayAudioDelta (some "MZsid") (b64encode [72, 105, 33]) =
      { event := "media", frameStreamSid := some "MZsid"
        payload := b64encode [72, 105, 33] } :=
  audio_delta_forwarded_verbatim_on_canonical_base64 (some "MZsid") [72, 105, 33]
    (by decide)

end ClinicalAvatar
